import Mathlib

set_option maxRecDepth 16384

/-!
Verification of the `fastapi_mail_sender` contact-form service.

This file gives a shallow embedding of the relevant parts of the
repository (the Pydantic validators in `Emails/schemas.py`, the
recipients parsing in `Emails/config_email.py`, the email service in
`Emails/service.py` and the router in `Emails/router.py`) and proves or
refutes the behavioural claims about them.

Modelling conventions:
* Python strings are Lean `String`s; character-level work is done on
  `String.data : List Char`.
* Python `re` character classes are modelled over ASCII: `\d` is
  `'0'..'9'`, `\s` is the ASCII whitespace set, `\w` is
  `[A-Za-z0-9_]`, and `re.IGNORECASE` lowercases `A..Z` only.  None of
  the claims involve non-ASCII digits, whitespace or letters.
* Fallible Python code is modelled with `Except`; a caught exception is
  an `Except.error` value consumed by the handler that catches it.
-/

namespace FastapiMailSender

/-! ### ASCII character classes used by the Python `re` patterns -/

/-- ASCII lowercasing, the effect of `re.IGNORECASE` on the ASCII
patterns used in `schemas.py`. -/
def lc (c : Char) : Char :=
  match c with
  | 'A' => 'a' | 'B' => 'b' | 'C' => 'c' | 'D' => 'd' | 'E' => 'e'
  | 'F' => 'f' | 'G' => 'g' | 'H' => 'h' | 'I' => 'i' | 'J' => 'j'
  | 'K' => 'k' | 'L' => 'l' | 'M' => 'm' | 'N' => 'n' | 'O' => 'o'
  | 'P' => 'p' | 'Q' => 'q' | 'R' => 'r' | 'S' => 's' | 'T' => 't'
  | 'U' => 'u' | 'V' => 'v' | 'W' => 'w' | 'X' => 'x' | 'Y' => 'y'
  | 'Z' => 'z'
  | c => c

/-- The whitespace class `\s` of Python `re` (ASCII part). -/
def isPySpace (c : Char) : Bool :=
  c == ' ' || c == '\t' || c == '\n' || c == '\r' || c == '\x0b' || c == '\x0c'

/-- The word-character class `\w` of Python `re` (ASCII part). -/
def isWordChar (c : Char) : Bool :=
  ('A' ≤ c && c ≤ 'Z') || ('a' ≤ c && c ≤ 'z') || ('0' ≤ c && c ≤ '9') || c == '_'

/-- The digit class `\d` of Python `re` (ASCII part). -/
def isAsciiDigit (c : Char) : Bool :=
  '0' ≤ c && c ≤ '9'

/-- `str.strip()` on the right: drop trailing whitespace. -/
def dropTrail (l : List Char) : List Char :=
  (l.reverse.dropWhile isPySpace).reverse

/-- Python `str.strip()`: drop leading and trailing whitespace. -/
def pyStrip (l : List Char) : List Char :=
  dropTrail (l.dropWhile isPySpace)

/-! ### `Emails/config_email.py`: recipients parsing and settings -/

/-- Python `str.split(sep)` for a one-character separator: the list of
(possibly empty) segments between occurrences of `sep`. -/
def pySplit (sep : Char) : List Char → List (List Char)
  | [] => [[]]
  | c :: cs =>
    if c == sep then
      [] :: pySplit sep cs
    else
      match pySplit sep cs with
      | h :: t => (c :: h) :: t
      | [] => [[c]]

/-- `EmailSettings.parse_recipients` from `config_email.py`: an empty
string gives `[]`, otherwise the comma-separated segments with
surrounding whitespace stripped. -/
def parse_recipients (v : String) : List String :=
  if v = "" then []
  else (pySplit ',' v.data).map (fun seg => String.mk (pyStrip seg))

/-- The fields of `EmailSettings` used by the claims (with
`MAIL_RECIPIENTS_CONTACT` already parsed by its validator). -/
structure EmailSettings where
  MAIL_USERNAME : String
  MAIL_PASSWORD : String
  MAIL_FROM : String
  MAIL_PORT : Nat
  MAIL_SERVER : String
  MAIL_STARTTLS : Bool
  MAIL_SSL_TLS : Bool
  USE_CREDENTIALS : Bool
  VALIDATE_CERTS : Bool
  MAIL_RECIPIENTS_CONTACT : List String

/-- Response schema of `GET /contact/health`. -/
structure HealthResponse where
  status : String
  smtp_server : String
  mail_from : String
  tls_enabled : Bool
  recipients_count : Nat
deriving DecidableEq

/-- `check_email_service_health` from `router.py`. -/
def check_email_service_health (s : EmailSettings) : HealthResponse :=
  { status := "operational"
    smtp_server := s.MAIL_SERVER ++ ":" ++ toString s.MAIL_PORT
    mail_from := s.MAIL_FROM
    tls_enabled := s.MAIL_SSL_TLS
    recipients_count := s.MAIL_RECIPIENTS_CONTACT.length }

/-! #### Lemmas about `pySplit` -/

theorem pySplit_ne_nil (sep : Char) (l : List Char) : pySplit sep l ≠ [] := by
  cases l with
  | nil => simp [pySplit]
  | cons c cs =>
    unfold pySplit
    split
    · simp
    · split <;> simp

theorem pySplit_length (sep : Char) (l : List Char) :
    (pySplit sep l).length = l.count sep + 1 := by
  induction l with
  | nil => simp [pySplit]
  | cons c cs ih =>
    rw [List.count_cons]
    cases hc : c == sep with
    | true => simp [pySplit, hc, ih]
    | false =>
      obtain ⟨hh, t, heq⟩ := List.exists_cons_of_ne_nil (pySplit_ne_nil sep cs)
      have hlen : (hh :: t).length = cs.count sep + 1 := by rw [← heq]; exact ih
      simp only [List.length_cons] at hlen
      simp [pySplit, hc, heq, hlen]

theorem pySplit_append_sep (sep : Char) (w : List Char) :
    pySplit sep (w ++ [sep]) = pySplit sep w ++ [[]] := by
  induction w with
  | nil => simp [pySplit]
  | cons c cs ih =>
    unfold pySplit
    by_cases h : c == sep
    · simp [h, ih]
    · simp only [List.cons_append, h, if_false]
      rw [ih]
      obtain ⟨hh, t, heq⟩ := List.exists_cons_of_ne_nil (pySplit_ne_nil sep cs)
      rw [heq]
      simp

/-! ### `Emails/schemas.py`: the message sanitizer

`sanitize_message` applies, in order, one `re.sub(pattern, '', v,
flags=IGNORECASE | DOTALL)` pass for each of the four dangerous
patterns and then strips the result.  Each pass below is a faithful
model of the corresponding `re.sub` call: scan left to right, at each
position try the pattern (these particular patterns match
deterministically, with no viable backtracking alternatives), delete
the leftmost match and continue scanning after its end. -/

/-- Case-insensitive literal prefix test: does `s` start with the
(lowercase) pattern `p`, comparing via ASCII lowercasing? -/
def ciPref : List Char → List Char → Bool
  | [], _ => true
  | _ :: _, [] => false
  | p :: ps, c :: cs => (lc c == p) && ciPref ps cs

/-- Matcher for a literal pattern under `re.IGNORECASE` (used for
`javascript:`).  Returns the length of the match at this position. -/
def matchLit (p : List Char) (l : List Char) : Option Nat :=
  if ciPref p l then some p.length else none

/-- Matcher for `on\w+\s*=` under `re.IGNORECASE` at the current
position: `on`, then a maximal nonempty run of word characters, then a
maximal run of whitespace, then `=`.  (The greedy `\w+`/`\s*` admit no
other successful backtracking split since `\w`, `\s` and `=` are
pairwise disjoint.) -/
def matchOn (l : List Char) : Option Nat :=
  match l with
  | c1 :: c2 :: rest =>
    if lc c1 == 'o' && lc c2 == 'n' then
      let w := rest.takeWhile isWordChar
      if w.isEmpty then none
      else
        let rest2 := rest.drop w.length
        let sp := rest2.takeWhile isPySpace
        match rest2.drop sp.length with
        | c3 :: _ => if lc c3 == '=' then some (2 + w.length + sp.length + 1) else none
        | [] => none
    else none
  | _ => none

/-- Scan for the first (case-insensitive) occurrence of `close`,
returning the number of characters consumed up to and including it.
This is the lazy `.*?` followed by the closing literal, under
`re.DOTALL`. -/
def findClose (close : List Char) : List Char → Option Nat
  | [] => if ciPref close [] then some close.length else none
  | c :: cs =>
    if ciPref close (c :: cs) then some close.length
    else (findClose close cs).map (fun k => k + 1)

/-- Matcher for `<script[^>]*>.*?</script>` (and the `iframe`
analogue) under `re.IGNORECASE | re.DOTALL`: the literal open tag, a
maximal run of non-`>` characters, `>`, then the lazy body up to the
first closing literal. -/
def matchBlock (openTag close : List Char) (l : List Char) : Option Nat :=
  if ciPref openTag l then
    let rest := l.drop openTag.length
    let attrs := rest.takeWhile (fun c => !(c == '>'))
    match rest.drop attrs.length with
    | c :: rest2 =>
      if c == '>' then
        match findClose close rest2 with
        | some k => some (openTag.length + attrs.length + 1 + k)
        | none => none
      else none
    | [] => none
  else none

/-- One `re.sub(pattern, '', text)` pass for a matcher `m`, with
explicit fuel (one unit per consumed character) so that the recursion
is structural and the function evaluates in the kernel.  Deletes every
leftmost non-overlapping match, scanning left to right and continuing
after the end of each deleted match. -/
def scanRemoveAux (m : List Char → Option Nat) : Nat → List Char → List Char
  | 0, _ => []
  | _, [] => []
  | fuel + 1, c :: cs =>
    match m (c :: cs) with
    | some k => scanRemoveAux m fuel (List.drop (k - 1) cs)
    | none => c :: scanRemoveAux m fuel cs

/-- One `re.sub(pattern, '', text)` pass for a matcher `m` (the fuel
`l.length` always suffices: every step consumes at least one
character). -/
def scanRemove (m : List Char → Option Nat) (l : List Char) : List Char :=
  scanRemoveAux m l.length l

/-- Does the matcher `m` match at some position of `l` (i.e. would the
corresponding `re.sub` pass delete anything)? -/
def hasMatch (m : List Char → Option Nat) : List Char → Bool
  | [] => (m []).isSome
  | c :: cs => (m (c :: cs)).isSome || hasMatch m cs

/-- Case-insensitive substring containment, used to state the claims
about dangerous substrings surviving sanitization. -/
def hasSubCI (p : List Char) (l : List Char) : Bool :=
  hasMatch (matchLit p) l

/-- The four dangerous patterns of `sanitize_message`, pre-lowercased. -/
def scriptOpen : List Char := "<script".data
def scriptClose : List Char := "</script>".data
def iframeOpen : List Char := "<iframe".data
def iframeClose : List Char := "</iframe>".data
def jsPattern : List Char := "javascript:".data

/-- `ContactFormRequest.sanitize_message` from `schemas.py`: the four
removal passes in source order, then `str.strip()`. -/
def sanitize_message (v : String) : String :=
  let p1 := scanRemove (matchBlock scriptOpen scriptClose) v.data
  let p2 := scanRemove (matchBlock iframeOpen iframeClose) p1
  let p3 := scanRemove (matchLit jsPattern) p2
  let p4 := scanRemove matchOn p3
  String.mk (pyStrip p4)

/-! ### `Emails/schemas.py`: field validation

Pydantic v1 checks a field's `min_length`/`max_length` constraints on
the raw value first and only then runs the field's custom `validator`.
A failure is reported against the field name (the error `loc`). -/

/-- A Pydantic field error: the offending field and the message. -/
structure FieldError where
  field : String
  msg : String
deriving DecidableEq

/-- The `[\s\-\(\)]` cleaning step of `validate_phone_format`. -/
def cleanPhone (v : String) : String :=
  String.mk (v.data.filter (fun c => !(isPySpace c || c == '-' || c == '(' || c == ')')))

/-- The anchored pattern `^\+?\d{8,15}$` of `validate_phone_format`
(the cleaned value contains no newline, so `$` is end-of-string). -/
def phoneRegexMatch (l : List Char) : Bool :=
  match l with
  | '+' :: rest => decide (8 ≤ rest.length) && decide (rest.length ≤ 15) && rest.all isAsciiDigit
  | _ => decide (8 ≤ l.length) && decide (l.length ≤ 15) && l.all isAsciiDigit

/-- Validation pipeline for the `telephone` field: `Field(min_length=8,
max_length=20)` on the raw value, then `validate_phone_format`. -/
def validate_telephone (v : String) : Except FieldError String :=
  if v.length < 8 then
    Except.error ⟨"telephone", "ensure this value has at least 8 characters"⟩
  else if 20 < v.length then
    Except.error ⟨"telephone", "ensure this value has at most 20 characters"⟩
  else
    let cleaned := cleanPhone v
    if phoneRegexMatch cleaned.data then Except.ok cleaned
    else Except.error ⟨"telephone",
      "Format de téléphone invalide. Utilisez un format international (+224...) ou local (621..)"⟩

/-- Validation pipeline for the `message` field: `Field(min_length=10,
max_length=2000)` on the raw value, then `sanitize_message`. -/
def validate_message (v : String) : Except FieldError String :=
  if v.length < 10 then
    Except.error ⟨"message", "ensure this value has at least 10 characters"⟩
  else if 2000 < v.length then
    Except.error ⟨"message", "ensure this value has at most 2000 characters"⟩
  else
    Except.ok (sanitize_message v)

/-! ### `Emails/service.py` and `Emails/router.py`

The service renders two bodies, schedules two background sends and
returns the success payload.  External collaborators are parameters:
the Jinja2 environment is a function `render : templateName → context →
Except error html` (an `Except.error` is a raised rendering exception,
caught by `_render_template`), and the SMTP transport is a function
`smtpSend : MessageSchema → Except error Unit` (an `Except.error` is a
raised delivery exception, caught by `_send_email_with_logging`).
`datetime.now()` / `datetime.utcnow()` are parameters as well. -/

/-- A `datetime.datetime` value (naive). -/
structure Datetime where
  year : Nat
  month : Nat
  day : Nat
  hour : Nat
  minute : Nat
  second : Nat
  microsecond : Nat
deriving DecidableEq

/-- The invariants `datetime` guarantees for its components. -/
def ValidDatetime (d : Datetime) : Prop :=
  1 ≤ d.year ∧ d.year ≤ 9999 ∧ 1 ≤ d.month ∧ d.month ≤ 12 ∧
  1 ≤ d.day ∧ d.day ≤ 31 ∧ d.hour ≤ 23 ∧ d.minute ≤ 59 ∧
  d.second ≤ 59 ∧ d.microsecond < 1000000

instance (d : Datetime) : Decidable (ValidDatetime d) := by
  unfold ValidDatetime
  infer_instance

/-- The decimal digit characters. -/
def digitChars : List Char := ['0', '1', '2', '3', '4', '5', '6', '7', '8', '9']

/-- The character of the last decimal digit of `n`. -/
def digit (n : Nat) : Char := digitChars.getD (n % 10) '0'

/-- `%02d` on an in-range component. -/
def pad2 (n : Nat) : List Char := [digit (n / 10), digit n]

/-- `%04d` on an in-range component. -/
def pad4 (n : Nat) : List Char :=
  [digit (n / 1000), digit (n / 100), digit (n / 10), digit n]

/-- `%06d` on an in-range component. -/
def pad6 (n : Nat) : List Char :=
  [digit (n / 100000), digit (n / 10000), digit (n / 1000),
   digit (n / 100), digit (n / 10), digit n]

/-- `datetime.isoformat()`: `YYYY-MM-DDTHH:MM:SS` with a `.ffffff`
fraction exactly when the microsecond component is nonzero. -/
def isoformat (d : Datetime) : String :=
  String.mk (pad4 d.year ++ '-' :: pad2 d.month ++ '-' :: pad2 d.day ++
    'T' :: pad2 d.hour ++ ':' :: pad2 d.minute ++ ':' :: pad2 d.second ++
    (if d.microsecond == 0 then [] else '.' :: pad6 d.microsecond))

/-- Checker for a well-formed ISO-8601 date-time string of the shape
produced by `datetime.isoformat()` (with optional fraction). -/
def isIso8601 (s : String) : Bool :=
  match s.data with
  | y1 :: y2 :: y3 :: y4 :: c1 :: m1 :: m2 :: c2 :: d1 :: d2 :: t ::
      h1 :: h2 :: c3 :: n1 :: n2 :: c4 :: s1 :: s2 :: rest =>
    [y1, y2, y3, y4, m1, m2, d1, d2, h1, h2, n1, n2, s1, s2].all isAsciiDigit &&
    c1 == '-' && c2 == '-' && t == 'T' && c3 == ':' && c4 == ':' &&
    (match rest with
     | [] => true
     | '.' :: fs => fs.all isAsciiDigit && decide (fs.length = 6)
     | _ => false)
  | _ => false

/-- The template context built by `send_contact_form_submission`
(`template_data`), and consumed by `_fallback_html` via
`context.get(key, 'N/A')`.  A `none` field is an absent key. -/
structure Ctx where
  nom : Option String
  email : Option String
  telephone : Option String
  sujet : Option String
  message : Option String
  date_reception : Option String

/-- A validated `ContactFormRequest` (the handler receives the form
only after Pydantic validation succeeded). -/
structure ContactForm where
  nom : String
  email : String
  telephone : String
  sujet : String
  message : String

/-- Response schema of `POST /contact/submit` (`ContactFormResponse`). -/
structure ContactFormResponse where
  success : Bool
  message : String
  timestamp : String
deriving DecidableEq

/-- A `fastapi_mail.MessageSchema` (html subtype). -/
structure MessageSchema where
  subject : String
  recipients : List String
  body : String
deriving DecidableEq

/-- One `background_tasks.add_task(self._send_email_with_logging, msg,
label)` call. -/
structure BackgroundTask where
  message : MessageSchema
  email_type : String
deriving DecidableEq

/-- The pieces of the `_fallback_html` f-string between interpolated
context fields (whitespace of the Python triple-quoted literal
simplified; the claims concern the interpolated content). -/
def fbPre : String :=
  " \n<!DOCTYPE html>\n<html>\n<body style=\"font-family: Arial, sans-serif; padding: 20px;\">\n<h2>Nouveau Message de Contact</h2>\n<p><strong>Nom :</strong> "

def fbMid1 : String := "</p>\n<p><strong>Email :</strong> "

def fbMid2 : String := "</p>\n<p><strong>Téléphone :</strong> "

def fbMid3 : String := "</p>\n<p><strong>Sujet :</strong> "

def fbMid4 : String := "</p>\n<p><strong>Message :</strong></p>\n<pre>"

def fbPost : String := "</pre>\n</body>\n</html>\n"

/-- `EmailService._fallback_html`: direct f-string interpolation of
`context.get(field, 'N/A')`, with no HTML escaping. -/
def fallback_html (context : Ctx) : String :=
  fbPre ++ context.nom.getD "N/A" ++ fbMid1 ++ context.email.getD "N/A" ++
  fbMid2 ++ context.telephone.getD "N/A" ++ fbMid3 ++ context.sujet.getD "N/A" ++
  fbMid4 ++ context.message.getD "N/A" ++ fbPost

/-- `EmailService._render_template`: return the rendered html, or the
fallback document when rendering raised. -/
def render_template (renderResult : Except String String) (context : Ctx) : String :=
  match renderResult with
  | Except.ok html => html
  | Except.error _ => fallback_html context

/-- `template_data` as built in `send_contact_form_submission`: all six
keys present. -/
def template_data (form : ContactForm) (date_reception : String) : Ctx :=
  { nom := some form.nom
    email := some form.email
    telephone := some form.telephone
    sujet := some form.sujet
    message := some form.message
    date_reception := some date_reception }

/-- `EmailService.send_contact_form_submission`: build the context,
render the two bodies (with fallback on error), schedule the two
background sends, and return the success payload with
`datetime.utcnow().isoformat()`. -/
def send_contact_form_submission (settings : EmailSettings)
    (render : String → Ctx → Except String String) (form : ContactForm)
    (dateReception : String) (nowUtc : Datetime) :
    ContactFormResponse × List BackgroundTask :=
  let ctx := template_data form dateReception
  let internal_email_body := render_template (render "notification_interne.html" ctx) ctx
  let internal_message : MessageSchema :=
    { subject := "Nouveau message: " ++ form.sujet
      recipients := settings.MAIL_RECIPIENTS_CONTACT
      body := internal_email_body }
  let visitor_email_body := render_template (render "confirmation_visiteur.html" ctx) ctx
  let visitor_message : MessageSchema :=
    { subject := " Votre message a bien été reçu - Ville Propre"
      recipients := [form.email]
      body := visitor_email_body }
  (⟨true,
    "Votre message a été envoyé avec succès. Nous vous répondrons dans les plus brefs délais.",
    isoformat nowUtc⟩,
   [⟨internal_message, "notification interne"⟩,
    ⟨visitor_message, "confirmation visiteur"⟩])

/-- `EmailService._send_email_with_logging`: try the send; on success
log at INFO, on any raised delivery error log at ERROR with the
purpose label.  The `Except` return type records whether an exception
propagates to the caller; the except-branch returns normally, so both
branches are `Except.ok`. -/
def send_email_with_logging (sendOutcome : Except String Unit)
    (email_type : String) : Except String (List (String × String)) :=
  match sendOutcome with
  | Except.ok _ => Except.ok [("INFO", "Email envoyé avec succès: " ++ email_type)]
  | Except.error e =>
    Except.ok [("ERROR", "Erreur envoi email (" ++ email_type ++ "): " ++ e)]

/-- Execution of the scheduled background tasks by the task runner
(after the response was sent): each task runs
`_send_email_with_logging` against the SMTP transport. -/
def run_background (smtpSend : MessageSchema → Except String Unit)
    (tasks : List BackgroundTask) : List (String × String) :=
  (tasks.map (fun t =>
    match send_email_with_logging (smtpSend t.message) t.email_type with
    | Except.ok logs => logs
    | Except.error e => [("CRASH", e)])).flatten

/-- `submit_contact_form` from `router.py`: return the service result,
or — if the service call raised — the catch-all success response built
with `datetime.now().isoformat()`.  A normal return is served with the
decorator's `status_code=200`. -/
def submit_contact_form
    (serviceResult : Except String (ContactFormResponse × List BackgroundTask))
    (nowLocal : Datetime) : ContactFormResponse × List BackgroundTask :=
  match serviceResult with
  | Except.ok r => r
  | Except.error _ =>
    (⟨true, "Votre message a été reçu. Nous vous contacterons bientôt.",
      isoformat nowLocal⟩, [])

/-- A whole valid-submission request: the handler runs the service,
then the task runner performs the scheduled sends against the SMTP
transport.  The response is the first component; delivery outcomes
only produce logs. -/
def full_request (settings : EmailSettings)
    (render : String → Ctx → Except String String) (form : ContactForm)
    (dateReception : String) (nowUtc nowLocal : Datetime)
    (smtpSend : MessageSchema → Except String Unit) :
    ContactFormResponse × List (String × String) :=
  let r := submit_contact_form
    (Except.ok (send_contact_form_submission settings render form dateReception nowUtc))
    nowLocal
  (r.1, run_background smtpSend r.2)

/-! ### Helper lemmas -/

theorem isAsciiDigit_digit (n : Nat) : isAsciiDigit (digit n) = true := by
  have h10 : ∀ k, k < 10 → isAsciiDigit (digitChars.getD k '0') = true := by decide
  exact h10 (n % 10) (Nat.mod_lt _ (by norm_num))

theorem isoformat_wf (d : Datetime) : isIso8601 (isoformat d) = true := by
  have hd := isAsciiDigit_digit
  unfold isoformat pad4 pad2 pad6
  by_cases h : d.microsecond == 0 <;> simp [h, isIso8601, hd]

theorem fallback_has_nom (ctx : Ctx) :
    ∃ a b, (fallback_html ctx).data = a ++ (ctx.nom.getD "N/A").data ++ b :=
  ⟨fbPre.data,
   (fbMid1 ++ ctx.email.getD "N/A" ++ fbMid2 ++ ctx.telephone.getD "N/A" ++ fbMid3 ++
    ctx.sujet.getD "N/A" ++ fbMid4 ++ ctx.message.getD "N/A" ++ fbPost).data,
   by simp [fallback_html, String.data_append, List.append_assoc]⟩

theorem fallback_has_email (ctx : Ctx) :
    ∃ a b, (fallback_html ctx).data = a ++ (ctx.email.getD "N/A").data ++ b :=
  ⟨(fbPre ++ ctx.nom.getD "N/A" ++ fbMid1).data,
   (fbMid2 ++ ctx.telephone.getD "N/A" ++ fbMid3 ++
    ctx.sujet.getD "N/A" ++ fbMid4 ++ ctx.message.getD "N/A" ++ fbPost).data,
   by simp [fallback_html, String.data_append, List.append_assoc]⟩

theorem fallback_has_telephone (ctx : Ctx) :
    ∃ a b, (fallback_html ctx).data = a ++ (ctx.telephone.getD "N/A").data ++ b :=
  ⟨(fbPre ++ ctx.nom.getD "N/A" ++ fbMid1 ++ ctx.email.getD "N/A" ++ fbMid2).data,
   (fbMid3 ++ ctx.sujet.getD "N/A" ++ fbMid4 ++ ctx.message.getD "N/A" ++ fbPost).data,
   by simp [fallback_html, String.data_append, List.append_assoc]⟩

theorem fallback_has_sujet (ctx : Ctx) :
    ∃ a b, (fallback_html ctx).data = a ++ (ctx.sujet.getD "N/A").data ++ b :=
  ⟨(fbPre ++ ctx.nom.getD "N/A" ++ fbMid1 ++ ctx.email.getD "N/A" ++ fbMid2 ++
    ctx.telephone.getD "N/A" ++ fbMid3).data,
   (fbMid4 ++ ctx.message.getD "N/A" ++ fbPost).data,
   by simp [fallback_html, String.data_append, List.append_assoc]⟩

theorem fallback_has_message (ctx : Ctx) :
    ∃ a b, (fallback_html ctx).data = a ++ (ctx.message.getD "N/A").data ++ b :=
  ⟨(fbPre ++ ctx.nom.getD "N/A" ++ fbMid1 ++ ctx.email.getD "N/A" ++ fbMid2 ++
    ctx.telephone.getD "N/A" ++ fbMid3 ++ ctx.sujet.getD "N/A" ++ fbMid4).data,
   fbPost.data,
   by simp [fallback_html, String.data_append, List.append_assoc]⟩

theorem fallback_ne_empty (ctx : Ctx) : fallback_html ctx ≠ "" := by
  intro h
  have h2 := congrArg (fun s => s.data.length) h
  simp only [fallback_html, String.data_append, List.length_append] at h2
  have hpost : 0 < fbPost.data.length := by decide
  have hnil : (([] : List Char)).length = 0 := rfl
  have hnil2 : ("" : String).data.length = 0 := rfl
  omega

theorem scanRemoveAux_length_le (m : List Char → Option Nat) :
    ∀ (fuel : Nat) (l : List Char), (scanRemoveAux m fuel l).length ≤ l.length := by
  intro fuel
  induction fuel with
  | zero => intro l; simp [scanRemoveAux]
  | succ n ih =>
    intro l
    cases l with
    | nil => simp [scanRemoveAux]
    | cons c cs =>
      unfold scanRemoveAux
      cases m (c :: cs) with
      | some k =>
        have h1 := ih (List.drop (k - 1) cs)
        have h2 : (List.drop (k - 1) cs).length ≤ cs.length := by
          simp [List.length_drop]
        simp only [List.length_cons]
        omega
      | none =>
        have := ih cs
        simp only [List.length_cons]
        omega

theorem scanRemove_length_le (m : List Char → Option Nat) (l : List Char) :
    (scanRemove m l).length ≤ l.length :=
  scanRemoveAux_length_le m l.length l

theorem dropTrail_length_le (l : List Char) : (dropTrail l).length ≤ l.length := by
  unfold dropTrail
  have h := (List.dropWhile_sublist (l := l.reverse) isPySpace).length_le
  simp only [List.length_reverse] at *
  omega

theorem pyStrip_length_le (l : List Char) : (pyStrip l).length ≤ l.length := by
  unfold pyStrip
  have h1 := dropTrail_length_le (l.dropWhile isPySpace)
  have h2 := (List.dropWhile_sublist (l := l) isPySpace).length_le
  omega

theorem sanitize_length_le (v : String) :
    (sanitize_message v).length ≤ v.length := by
  unfold sanitize_message
  have h1 := scanRemove_length_le (matchBlock scriptOpen scriptClose) v.data
  have h2 := scanRemove_length_le (matchBlock iframeOpen iframeClose)
    (scanRemove (matchBlock scriptOpen scriptClose) v.data)
  have h3 := scanRemove_length_le (matchLit jsPattern)
    (scanRemove (matchBlock iframeOpen iframeClose)
      (scanRemove (matchBlock scriptOpen scriptClose) v.data))
  have h4 := scanRemove_length_le matchOn
    (scanRemove (matchLit jsPattern)
      (scanRemove (matchBlock iframeOpen iframeClose)
        (scanRemove (matchBlock scriptOpen scriptClose) v.data)))
  have h5 := pyStrip_length_le
    (scanRemove matchOn
      (scanRemove (matchLit jsPattern)
        (scanRemove (matchBlock iframeOpen iframeClose)
          (scanRemove (matchBlock scriptOpen scriptClose) v.data))))
  simp only [String.length]
  omega

/-! ### Sample values used by witnesses and counterexamples -/

def sampleSettings : EmailSettings :=
  { MAIL_USERNAME := "contact@ville-propre.example"
    MAIL_PASSWORD := "secret"
    MAIL_FROM := "contact@ville-propre.example"
    MAIL_PORT := 587
    MAIL_SERVER := "smtp.example.com"
    MAIL_STARTTLS := true
    MAIL_SSL_TLS := false
    USE_CREDENTIALS := true
    VALIDATE_CERTS := true
    MAIL_RECIPIENTS_CONTACT := ["equipe@ville-propre.example"] }

def sampleForm : ContactForm :=
  { nom := "Mamadou Diallo"
    email := "mamadou@example.com"
    telephone := "+224621234567"
    sujet := "Demande de renseignements"
    message := "Bonjour, je souhaite des informations." }

def sampleDt : Datetime := ⟨2025, 1, 20, 14, 30, 0, 123456⟩

def renderFail : String → Ctx → Except String String :=
  fun _ _ => Except.error "TemplateNotFound"

def smtpDown : MessageSchema → Except String Unit :=
  fun _ => Except.error "Connection refused"

def smtpUp : MessageSchema → Except String Unit :=
  fun _ => Except.ok ()

/-- `sampleSettings` whose internal recipient list coincides with the
visitor's address. -/
def clashSettings : EmailSettings :=
  { sampleSettings with MAIL_RECIPIENTS_CONTACT := ["mamadou@example.com"] }

/-! ### Claim C1 -/

/-- C1: for every submission whose fields passed validation, the
submit handler returns the success response — `success = true`, the
fixed confirmation message, and a well-formed ISO-8601 timestamp —
and the response is independent of the SMTP transport's behaviour
(the sends only run as background tasks after the response). -/
theorem C1_valid_submission_success_response
    (settings : EmailSettings) (render : String → Ctx → Except String String)
    (form : ContactForm) (dateReception : String) (nowUtc nowLocal : Datetime)
    (smtpSend smtpSend2 : MessageSchema → Except String Unit)
    (hvalid : ValidDatetime nowUtc) :
    (full_request settings render form dateReception nowUtc nowLocal smtpSend).1.success = true ∧
    (full_request settings render form dateReception nowUtc nowLocal smtpSend).1.message =
      "Votre message a été envoyé avec succès. Nous vous répondrons dans les plus brefs délais." ∧
    isIso8601 (full_request settings render form dateReception nowUtc nowLocal smtpSend).1.timestamp
      = true ∧
    (full_request settings render form dateReception nowUtc nowLocal smtpSend).1 =
      (full_request settings render form dateReception nowUtc nowLocal smtpSend2).1 :=
  ⟨rfl, rfl, isoformat_wf nowUtc, rfl⟩

/-- Witness for C1 at concrete inputs, with an unreachable SMTP host on
one side and a reachable one on the other. -/
theorem C1_valid_submission_success_response_witness :
    (full_request sampleSettings renderFail sampleForm "20/01/2025 à 14:30"
      sampleDt sampleDt smtpDown).1.success = true ∧
    isIso8601 (full_request sampleSettings renderFail sampleForm "20/01/2025 à 14:30"
      sampleDt sampleDt smtpDown).1.timestamp = true ∧
    (full_request sampleSettings renderFail sampleForm "20/01/2025 à 14:30"
      sampleDt sampleDt smtpDown).1 =
    (full_request sampleSettings renderFail sampleForm "20/01/2025 à 14:30"
      sampleDt sampleDt smtpUp).1 := by
  have h := C1_valid_submission_success_response sampleSettings renderFail sampleForm
    "20/01/2025 à 14:30" sampleDt sampleDt smtpDown smtpUp (by decide)
  exact ⟨h.1, h.2.2.1, h.2.2.2⟩

/-! ### Claim C4 -/

/-- C4 counterexample: the 27-character raw message
`<script>aaaaaaaaaa</script>` passes validation, but the stored
(sanitized) message is empty — its length is below the model's lower
bound of 10. -/
theorem C4_counterexample_stored_message_short :
    validate_message "<script>aaaaaaaaaa</script>" = Except.ok "" ∧
    ¬ (10 ≤ ("" : String).length) :=
  ⟨rfl, by decide⟩

/-- C4 (amended): the 10–2000 length bounds are enforced on the raw
message, before sanitization; the stored message is the sanitized raw
message, never exceeds 2000 characters (sanitization only removes
characters), but can be shorter than 10. -/
theorem C4_message_bounds_amended (v m : String)
    (h : validate_message v = Except.ok m) :
    10 ≤ v.length ∧ v.length ≤ 2000 ∧ m = sanitize_message v ∧ m.length ≤ 2000 := by
  unfold validate_message at h
  by_cases h1 : v.length < 10
  · simp [h1] at h
  · by_cases h2 : 2000 < v.length
    · simp [h1, h2] at h
    · simp only [h1, if_false, h2] at h
      have hm : m = sanitize_message v := by
        cases h; rfl
      subst hm
      refine ⟨by omega, by omega, rfl, ?_⟩
      have := sanitize_length_le v
      omega

/-- Witness for C4 at a concrete accepted input. -/
theorem C4_message_bounds_amended_witness :
    ("Bonjour, je souhaite des informations." : String).length ≤ 2000 ∧
    (sanitize_message "Bonjour, je souhaite des informations.").length ≤ 2000 := by
  have h := C4_message_bounds_amended "Bonjour, je souhaite des informations."
    (sanitize_message "Bonjour, je souhaite des informations.") rfl
  exact ⟨h.2.1, h.2.2.2⟩

/-! ### Claim C5 -/

/-- C5: when rendering raised, `_render_template` returns the fallback
document, which is non-empty and contains each context field verbatim
(and the default placeholder `N/A` for an absent field, uniformly via
`context.get(field, 'N/A')`). -/
theorem C5_render_error_fallback (e : String) (ctx : Ctx) :
    render_template (Except.error e) ctx = fallback_html ctx ∧
    fallback_html ctx ≠ "" ∧
    (∃ a b, (fallback_html ctx).data = a ++ (ctx.nom.getD "N/A").data ++ b) ∧
    (∃ a b, (fallback_html ctx).data = a ++ (ctx.email.getD "N/A").data ++ b) ∧
    (∃ a b, (fallback_html ctx).data = a ++ (ctx.telephone.getD "N/A").data ++ b) ∧
    (∃ a b, (fallback_html ctx).data = a ++ (ctx.sujet.getD "N/A").data ++ b) ∧
    (∃ a b, (fallback_html ctx).data = a ++ (ctx.message.getD "N/A").data ++ b) :=
  ⟨rfl, fallback_ne_empty ctx, fallback_has_nom ctx, fallback_has_email ctx,
   fallback_has_telephone ctx, fallback_has_sujet ctx, fallback_has_message ctx⟩

/-! ### Claim C6 -/

/-- C6 counterexample: when the configured internal recipient list
equals the one-element list of the visitor's address, the two
scheduled sends have identical (not distinct) recipient lists. -/
theorem C6_counterexample_recipients_not_distinct :
    ((send_contact_form_submission clashSettings renderFail sampleForm
        "20/01/2025 à 14:30" sampleDt).2.map (fun t => t.message.recipients)) =
      [["mamadou@example.com"], ["mamadou@example.com"]] ∧
    ¬ ((send_contact_form_submission clashSettings renderFail sampleForm
        "20/01/2025 à 14:30" sampleDt).2.map (fun t => t.message.recipients)).Nodup := by
  constructor
  · rfl
  · intro h
    rw [show ((send_contact_form_submission clashSettings renderFail sampleForm
        "20/01/2025 à 14:30" sampleDt).2.map (fun t => t.message.recipients)) =
      [["mamadou@example.com"], ["mamadou@example.com"]] from rfl] at h
    simp at h

/-- C6 (amended): exactly two background sends are scheduled per
successful submission — first the internal notification to exactly the
configured internal recipient list, then the visitor confirmation to
exactly the one-element list of the submitted address.  The two
recipient lists are distinct whenever the configured list differs from
that one-element list; the code does not enforce distinctness. -/
theorem C6_two_background_tasks_amended
    (settings : EmailSettings) (render : String → Ctx → Except String String)
    (form : ContactForm) (dateReception : String) (nowUtc : Datetime) :
    (send_contact_form_submission settings render form dateReception nowUtc).2.length = 2 ∧
    (send_contact_form_submission settings render form dateReception nowUtc).2.map
      (fun t => t.email_type) = ["notification interne", "confirmation visiteur"] ∧
    (send_contact_form_submission settings render form dateReception nowUtc).2.map
      (fun t => t.message.recipients) = [settings.MAIL_RECIPIENTS_CONTACT, [form.email]] ∧
    (settings.MAIL_RECIPIENTS_CONTACT ≠ [form.email] →
      ((send_contact_form_submission settings render form dateReception nowUtc).2.map
        (fun t => t.message.recipients)).Nodup) := by
  refine ⟨rfl, rfl, rfl, fun h => ?_⟩
  show ([settings.MAIL_RECIPIENTS_CONTACT, [form.email]] : List (List String)).Nodup
  simp [h]

/-- Witness for C6 at concrete inputs whose recipient lists differ. -/
theorem C6_two_background_tasks_amended_witness :
    (send_contact_form_submission sampleSettings renderFail sampleForm
      "20/01/2025 à 14:30" sampleDt).2.length = 2 ∧
    ((send_contact_form_submission sampleSettings renderFail sampleForm
      "20/01/2025 à 14:30" sampleDt).2.map (fun t => t.message.recipients)).Nodup := by
  have h := C6_two_background_tasks_amended sampleSettings renderFail sampleForm
    "20/01/2025 à 14:30" sampleDt
  exact ⟨h.1, h.2.2.2 (by decide)⟩

/-! ### Claim C7 -/

/-- C7 counterexample: the catch-all response of the router differs
from the happy-path response — its confirmation message is another
string. -/
theorem C7_counterexample_responses_differ :
    (submit_contact_form (Except.error "boom") sampleDt).1.message ≠
    (submit_contact_form (Except.ok (send_contact_form_submission sampleSettings
      renderFail sampleForm "20/01/2025 à 14:30" sampleDt)) sampleDt).1.message := by
  decide

/-- C7 (amended): every exception raised by the service call is caught
at the top of the handler and converted into a success response —
`success = true` with a confirmation message and a well-formed
ISO-8601 timestamp — but that confirmation message is a different
fixed string than the happy path's, and its timestamp comes from local
`datetime.now()` rather than `datetime.utcnow()`. -/
theorem C7_exception_converted_to_success_amended
    (e : String) (nowLocal : Datetime) (hvalid : ValidDatetime nowLocal) :
    (submit_contact_form (Except.error e) nowLocal).1 =
      ⟨true, "Votre message a été reçu. Nous vous contacterons bientôt.",
        isoformat nowLocal⟩ ∧
    (submit_contact_form (Except.error e) nowLocal).1.success = true ∧
    isIso8601 (submit_contact_form (Except.error e) nowLocal).1.timestamp = true :=
  ⟨rfl, rfl, isoformat_wf nowLocal⟩

/-- Witness for C7 at a concrete raised exception. -/
theorem C7_exception_converted_to_success_amended_witness :
    (submit_contact_form (Except.error "SMTP connect error") sampleDt).1.success = true ∧
    isIso8601 (submit_contact_form (Except.error "SMTP connect error") sampleDt).1.timestamp
      = true := by
  have h := C7_exception_converted_to_success_amended "SMTP connect error" sampleDt (by decide)
  exact ⟨h.2.1, h.2.2⟩

/-! ### Claim C8 -/

/-- C8: `_send_email_with_logging` returns normally for every send
outcome — both branches are `Except.ok`, so no delivery failure ever
propagates — and a raised delivery error produces exactly one ERROR
log line containing the message's purpose label. -/
theorem C8_send_failures_swallowed_and_logged
    (sendOutcome : Except String Unit) (email_type : String) :
    (∃ logs, send_email_with_logging sendOutcome email_type = Except.ok logs) ∧
    (∀ e, sendOutcome = Except.error e →
      send_email_with_logging sendOutcome email_type =
        Except.ok [("ERROR", "Erreur envoi email (" ++ email_type ++ "): " ++ e)] ∧
      ∃ a b, ("Erreur envoi email (" ++ email_type ++ "): " ++ e).data =
        a ++ email_type.data ++ b) := by
  constructor
  · cases sendOutcome with
    | ok u => exact ⟨_, rfl⟩
    | error e => exact ⟨_, rfl⟩
  · intro e he
    subst he
    refine ⟨rfl, "Erreur envoi email (".data, ("): " ++ e).data, ?_⟩
    simp [String.data_append, List.append_assoc]

/-- Witness for C8 at a concrete raised delivery error. -/
theorem C8_send_failures_swallowed_and_logged_witness :
    send_email_with_logging (Except.error "Connection refused") "notification interne" =
      Except.ok [("ERROR",
        "Erreur envoi email (notification interne): Connection refused")] := by
  have h := (C8_send_failures_swallowed_and_logged
    (Except.error "Connection refused") "notification interne").2
    "Connection refused" rfl
  exact h.1

/-! ### Claim C9 -/

/-- C9: for every non-empty recipient string, `parse_recipients`
returns exactly the comma-separated segments, stripped, in order; its
length is the comma count plus one; that length is what the health
endpoint reports as `recipients_count`; and a trailing comma yields a
final empty-string recipient entry. -/
theorem C9_parse_recipients_segments (v : String) (hv : v ≠ "") :
    parse_recipients v = (pySplit ',' v.data).map (fun seg => String.mk (pyStrip seg)) ∧
    (parse_recipients v).length = v.data.count ',' + 1 ∧
    (∀ s : EmailSettings, s.MAIL_RECIPIENTS_CONTACT = parse_recipients v →
      (check_email_service_health s).recipients_count = v.data.count ',' + 1) ∧
    (∀ w : List Char, v.data = w ++ [','] →
      (parse_recipients v).getLast? = some "") := by
  have hdef : parse_recipients v =
      (pySplit ',' v.data).map (fun seg => String.mk (pyStrip seg)) := by
    unfold parse_recipients
    simp [hv]
  refine ⟨hdef, ?_, ?_, ?_⟩
  · rw [hdef]
    simp [pySplit_length]
  · intro s hs
    unfold check_email_service_health
    rw [hs, hdef]
    simp [pySplit_length]
  · intro w hw
    rw [hdef, hw, pySplit_append_sep]
    simp only [List.map_append, List.map_cons, List.map_nil, List.getLast?_concat]
    rfl

/-- Witness for C9 at a concrete recipient string with a blank segment
and a trailing comma. -/
theorem C9_parse_recipients_segments_witness :
    (parse_recipients "a@x.com, b@y.com,,c@z.com,").length = 5 ∧
    (parse_recipients "a@x.com, b@y.com,,c@z.com,").getLast? = some "" := by
  have h := C9_parse_recipients_segments "a@x.com, b@y.com,,c@z.com," (by decide)
  refine ⟨?_, h.2.2.2 "a@x.com, b@y.com,,c@z.com".data (by decide)⟩
  rw [h.2.1]
  decide

/-! ### Claim C10 -/

/-- C10: `_fallback_html` performs no HTML escaping — every context
value is embedded verbatim (as an exact substring) in the returned
document, unlike the auto-escaping template path. -/
theorem C10_fallback_embeds_verbatim
    (nom email telephone sujet message dr : String) :
    (∃ a b, (fallback_html ⟨some nom, some email, some telephone, some sujet,
      some message, some dr⟩).data = a ++ nom.data ++ b) ∧
    (∃ a b, (fallback_html ⟨some nom, some email, some telephone, some sujet,
      some message, some dr⟩).data = a ++ email.data ++ b) ∧
    (∃ a b, (fallback_html ⟨some nom, some email, some telephone, some sujet,
      some message, some dr⟩).data = a ++ telephone.data ++ b) ∧
    (∃ a b, (fallback_html ⟨some nom, some email, some telephone, some sujet,
      some message, some dr⟩).data = a ++ sujet.data ++ b) ∧
    (∃ a b, (fallback_html ⟨some nom, some email, some telephone, some sujet,
      some message, some dr⟩).data = a ++ message.data ++ b) :=
  ⟨fallback_has_nom _, fallback_has_email _, fallback_has_telephone _,
   fallback_has_sujet _, fallback_has_message _⟩

/-! ### Claim C2 -/

/-- A string matching `^\+?\d{8,15}$` has at least 8 characters. -/
theorem phoneRegexMatch_min_length (l : List Char)
    (h : phoneRegexMatch l = true) : 8 ≤ l.length := by
  unfold phoneRegexMatch at h
  split at h
  · rename_i rest
    simp only [Bool.and_eq_true, decide_eq_true_eq] at h
    simp only [List.length_cons]
    omega
  · simp only [Bool.and_eq_true, decide_eq_true_eq] at h
    omega

/-- C2 counterexample: the raw 30-character input
`+1 2 3 4 5 6 7 8 9 0 1 2 3 4 5` strips to `+123456789012345`, which
matches `^\+?\d{8,15}$`, yet validation fails — the `Field`
`max_length=20` constraint is checked on the raw value before the
stripping validator runs. -/
theorem C2_counterexample_long_raw_phone :
    phoneRegexMatch (cleanPhone "+1 2 3 4 5 6 7 8 9 0 1 2 3 4 5").data = true ∧
    validate_telephone "+1 2 3 4 5 6 7 8 9 0 1 2 3 4 5" =
      Except.error ⟨"telephone", "ensure this value has at most 20 characters"⟩ :=
  ⟨by decide, rfl⟩

/-- C2 (amended): for every phone input of raw length at most 20 (the
schema's `Field` bound, checked before normalization) whose stripped
form matches `^\+?\d{8,15}$`, validation succeeds and stores the
stripped string; whenever the stripped form does not match (letters,
wrong length), validation fails; and every failure of the telephone
pipeline names the `telephone` field. -/
theorem C2_phone_validation_amended (v : String) :
    (v.length ≤ 20 → phoneRegexMatch (cleanPhone v).data = true →
      validate_telephone v = Except.ok (cleanPhone v)) ∧
    (phoneRegexMatch (cleanPhone v).data = false →
      ∃ e, validate_telephone v = Except.error e) ∧
    (∀ e, validate_telephone v = Except.error e → e.field = "telephone") := by
  refine ⟨?_, ?_, ?_⟩
  · intro hlen hre
    have h8 : 8 ≤ (cleanPhone v).data.length := phoneRegexMatch_min_length _ hre
    have hfil : (cleanPhone v).data.length ≤ v.data.length := by
      unfold cleanPhone
      exact List.length_filter_le _ _
    have hv8 : ¬ (v.length < 8) := by
      simp only [String.length] at *
      omega
    have hv20 : ¬ (20 < v.length) := by omega
    unfold validate_telephone
    simp [hv8, hv20, hre]
  · intro hre
    unfold validate_telephone
    by_cases h1 : v.length < 8
    · exact ⟨⟨"telephone", "ensure this value has at least 8 characters"⟩, by simp [h1]⟩
    · by_cases h2 : 20 < v.length
      · exact ⟨⟨"telephone", "ensure this value has at most 20 characters"⟩,
          by simp [h1, h2]⟩
      · exact ⟨⟨"telephone",
          "Format de téléphone invalide. Utilisez un format international (+224...) ou local (621..)"⟩,
          by simp [h1, h2, hre]⟩
  · intro e he
    unfold validate_telephone at he
    by_cases h1 : v.length < 8
    · simp [h1] at he
      rw [← he]
    · by_cases h2 : 20 < v.length
      · simp [h1, h2] at he
        rw [← he]
      · by_cases h3 : phoneRegexMatch (cleanPhone v).data = true
        · simp [h1, h2, h3] at he
        · simp [h1, h2, h3] at he
          rw [← he]

/-- Witness for C2 at concrete inputs: a formatted valid phone number
is accepted and normalized, and an alphabetic one is rejected with an
error naming the telephone field. -/
theorem C2_phone_validation_amended_witness :
    validate_telephone "+224 621-23-45-67" = Except.ok "+224621234567" ∧
    (∃ e, validate_telephone "abc def ghij" = Except.error e) ∧
    (∀ e, validate_telephone "abc def ghij" = Except.error e → e.field = "telephone") := by
  refine ⟨?_, ?_, (C2_phone_validation_amended "abc def ghij").2.2⟩
  · have h := (C2_phone_validation_amended "+224 621-23-45-67").1 (by decide) (by decide)
    rw [h]
    rfl
  · exact (C2_phone_validation_amended "abc def ghij").2.1 (by decide)

/-! ### Lemmas for claim C3: removal passes, monotonicity, transfer -/


theorem hasMatch_of_head (m : List Char → Option Nat) (l : List Char)
    (h : (m l).isSome = true) : hasMatch m l = true := by
  cases l with
  | nil => simpa [hasMatch] using h
  | cons c cs => simp [hasMatch, h]

theorem scanRemoveAux_id (m : List Char → Option Nat) :
    ∀ l : List Char, hasMatch m l = false → scanRemoveAux m l.length l = l := by
  intro l
  induction l with
  | nil => intro h; rfl
  | cons c cs ih =>
    intro h
    simp only [hasMatch, Bool.or_eq_false_iff] at h
    have hnone : m (c :: cs) = none := by
      cases hmc : m (c :: cs) with
      | none => rfl
      | some k => rw [hmc] at h; simp at h
    simp only [List.length_cons, scanRemoveAux, hnone]
    rw [ih h.2]

theorem scanRemove_id (m : List Char → Option Nat) (l : List Char)
    (h : hasMatch m l = false) : scanRemove m l = l :=
  scanRemoveAux_id m l h

theorem ciPref_append (p : List Char) :
    ∀ s t : List Char, ciPref p s = true → ciPref p (s ++ t) = true := by
  induction p with
  | nil => intro s t _; rfl
  | cons a as ih =>
    intro s t h
    cases s with
    | nil => simp [ciPref] at h
    | cons c cs =>
      simp only [ciPref, Bool.and_eq_true] at h ⊢
      exact ⟨h.1, ih cs t h.2⟩

theorem ciPref_length_le (p : List Char) :
    ∀ s : List Char, ciPref p s = true → p.length ≤ s.length := by
  induction p with
  | nil => intro s _; simp
  | cons a as ih =>
    intro s h
    cases s with
    | nil => simp [ciPref] at h
    | cons c cs =>
      simp only [ciPref, Bool.and_eq_true] at h
      have := ih cs h.2
      simp only [List.length_cons]
      omega

theorem takeWhile_append_stop {q : Char → Bool} (l t : List Char)
    (h : (l.takeWhile q).length < l.length) :
    (l ++ t).takeWhile q = l.takeWhile q := by
  rw [List.takeWhile_append]
  simp [Nat.ne_of_lt h]

theorem drop_append_of_le (n : Nat) (l t : List Char) (h : n ≤ l.length) :
    (l ++ t).drop n = l.drop n ++ t := by
  rw [List.drop_append_eq_append_drop]
  have h0 : n - l.length = 0 := by omega
  rw [h0, List.drop_zero]

theorem matchLit_mono (p : List Char) (s t : List Char)
    (h : (matchLit p s).isSome = true) : (matchLit p (s ++ t)).isSome = true := by
  unfold matchLit at h ⊢
  by_cases hc : ciPref p s = true
  · simp [ciPref_append p s t hc]
  · simp [hc] at h

theorem length_lt_of_drop_cons {l : List Char} {n : Nat} {c : Char} {rest : List Char}
    (h : l.drop n = c :: rest) : n < l.length := by
  have := congrArg List.length h
  simp only [List.length_drop, List.length_cons] at this
  omega

theorem matchOn_mono (s t : List Char)
    (h : (matchOn s).isSome = true) : (matchOn (s ++ t)).isSome = true := by
  rcases s with _ | ⟨c1, _ | ⟨c2, rest⟩⟩
  · simp [matchOn] at h
  · simp [matchOn] at h
  · rw [List.cons_append, List.cons_append]
    unfold matchOn at h ⊢
    by_cases hon : (lc c1 == 'o' && lc c2 == 'n') = true
    case neg => simp [hon] at h
    simp only [hon, if_true] at h ⊢
    by_cases hW : (rest.takeWhile isWordChar).isEmpty = true
    case pos => simp [hW] at h
    simp only [hW, if_false] at h
    -- the word run stops strictly inside rest
    set w := rest.takeWhile isWordChar with hw
    set rest2 := rest.drop w.length with hrest2
    set sp := rest2.takeWhile isPySpace with hsp
    cases hdrop : rest2.drop sp.length with
    | nil => rw [hdrop] at h; simp at h
    | cons c3 tail =>
      rw [hdrop] at h
      by_cases heq : (lc c3 == '=') = true
      case neg => simp [heq] at h
      -- Now rebuild the computation on `rest ++ t`.
      have hsp_lt : sp.length < rest2.length := length_lt_of_drop_cons hdrop
      have hw_le : w.length ≤ rest.length := (List.takeWhile_sublist (l := rest) isWordChar).length_le
      have hw_lt : w.length < rest.length := by
        have h2 : rest2.length = rest.length - w.length := by
          rw [hrest2, List.length_drop]
        omega
      have hW2 : (rest ++ t).takeWhile isWordChar = w := takeWhile_append_stop rest t hw_lt
      have hrest2' : (rest ++ t).drop w.length = rest2 ++ t := by
        rw [drop_append_of_le w.length rest t hw_le, hrest2]
      have hsp_le : sp.length ≤ rest2.length := Nat.le_of_lt hsp_lt
      have hsp2 : (rest2 ++ t).takeWhile isPySpace = sp := by
        apply takeWhile_append_stop
        rw [← hsp]
        omega
      have hdrop2 : (rest2 ++ t).drop sp.length = c3 :: (tail ++ t) := by
        rw [drop_append_of_le sp.length rest2 t hsp_le, hdrop]
        rfl
      simp only [hW2, hW, if_false, hrest2', hsp2, hdrop2, heq, if_true]
      rfl

theorem findClose_mono (close : List Char) :
    ∀ (s t : List Char), (findClose close s).isSome = true →
      (findClose close (s ++ t)).isSome = true := by
  intro s
  induction s with
  | nil =>
    intro t h
    simp only [findClose] at h
    by_cases hc : ciPref close [] = true
    · have : ciPref close ([] ++ t) = true := ciPref_append close [] t hc
      rw [List.nil_append] at this
      cases t with
      | nil => simp [findClose, this]
      | cons x xs => simp [findClose, this]
    · simp [hc] at h
  | cons c cs ih =>
    intro t h
    rw [List.cons_append]
    unfold findClose at h ⊢
    by_cases hc : ciPref close (c :: cs) = true
    · have h2 : ciPref close ((c :: cs) ++ t) = true := ciPref_append close _ t hc
      rw [List.cons_append] at h2
      simp [h2]
    · rw [if_neg hc] at h
      by_cases hc2 : ciPref close (c :: (cs ++ t)) = true
      · simp [hc2]
      · rw [if_neg hc2]
        cases hfc : findClose close cs with
        | none => rw [hfc] at h; simp at h
        | some k =>
          have hrec : (findClose close (cs ++ t)).isSome = true := by
            apply ih
            simp [hfc]
          cases hfc2 : findClose close (cs ++ t) with
          | none => rw [hfc2] at hrec; simp at hrec
          | some k2 => simp

theorem matchBlock_mono (openTag close : List Char) (s t : List Char)
    (h : (matchBlock openTag close s).isSome = true) :
    (matchBlock openTag close (s ++ t)).isSome = true := by
  unfold matchBlock at h ⊢
  by_cases ho : ciPref openTag s = true
  case neg => simp [ho] at h
  have ho2 : ciPref openTag (s ++ t) = true := ciPref_append openTag s t ho
  simp only [ho, if_true] at h
  simp only [ho2, if_true]
  have hlen : openTag.length ≤ s.length := ciPref_length_le openTag s ho
  set rest := s.drop openTag.length with hrest
  have hrest2 : (s ++ t).drop openTag.length = rest ++ t := by
    rw [drop_append_of_le openTag.length s t hlen, hrest]
  set attrs := rest.takeWhile (fun c => !(c == '>')) with hattrs
  cases hdrop : rest.drop attrs.length with
  | nil => rw [hdrop] at h; simp at h
  | cons c rest2 =>
    rw [hdrop] at h
    by_cases hgt : (c == '>') = true
    case neg => simp [hgt] at h
    simp only [hgt, if_true] at h
    have hattrs_lt : attrs.length < rest.length := length_lt_of_drop_cons hdrop
    have hattrs2 : (rest ++ t).takeWhile (fun c => !(c == '>')) = attrs := by
      apply takeWhile_append_stop
      rw [← hattrs]
      omega
    have hattrs_le : attrs.length ≤ rest.length := Nat.le_of_lt hattrs_lt
    have hdrop2 : (rest ++ t).drop attrs.length = c :: (rest2 ++ t) := by
      rw [drop_append_of_le attrs.length rest t hattrs_le, hdrop]
      rfl
    rw [hrest2, hattrs2, hdrop2]
    simp only [hgt, if_true]
    cases hfc : findClose close rest2 with
    | none => rw [hfc] at h; simp at h
    | some k =>
      have : (findClose close (rest2 ++ t)).isSome = true := by
        apply findClose_mono
        simp [hfc]
      cases hfc2 : findClose close (rest2 ++ t) with
      | none => rw [hfc2] at this; simp at this
      | some k2 => simp

theorem hasMatch_append_right (m : List Char → Option Nat)
    (mono : ∀ s t : List Char, (m s).isSome = true → (m (s ++ t)).isSome = true) :
    ∀ (a t : List Char), hasMatch m a = true → hasMatch m (a ++ t) = true := by
  intro a
  induction a with
  | nil =>
    intro t h
    simp only [hasMatch] at h
    have := mono [] t h
    rw [List.nil_append] at this ⊢
    exact hasMatch_of_head m t this
  | cons c cs ih =>
    intro t h
    simp only [hasMatch, Bool.or_eq_true] at h
    rw [List.cons_append]
    cases h with
    | inl hh =>
      have := mono (c :: cs) t hh
      rw [List.cons_append] at this
      exact hasMatch_of_head m _ this
    | inr hh =>
      simp only [hasMatch, Bool.or_eq_true]
      exact Or.inr (ih t hh)

theorem hasMatch_suffix (m : List Char → Option Nat) :
    ∀ (a b : List Char), hasMatch m b = true → hasMatch m (a ++ b) = true := by
  intro a
  induction a with
  | nil => intro b h; simpa
  | cons c cs ih =>
    intro b h
    rw [List.cons_append]
    simp only [hasMatch, Bool.or_eq_true]
    exact Or.inr (ih b h)

theorem dropTrail_decomp (l : List Char) : ∃ t : List Char, l = dropTrail l ++ t := by
  refine ⟨(l.reverse.takeWhile isPySpace).reverse, ?_⟩
  unfold dropTrail
  rw [← List.reverse_append, List.takeWhile_append_dropWhile, List.reverse_reverse]

theorem hasMatch_pyStrip (m : List Char → Option Nat)
    (mono : ∀ s t : List Char, (m s).isSome = true → (m (s ++ t)).isSome = true)
    (l : List Char) (h : hasMatch m l = false) : hasMatch m (pyStrip l) = false := by
  set d := l.dropWhile isPySpace with hd
  have hdfalse : hasMatch m d = false := by
    cases hdm : hasMatch m d with
    | false => rfl
    | true =>
      have : hasMatch m (l.takeWhile isPySpace ++ d) = true := hasMatch_suffix m _ d hdm
      rw [hd, List.takeWhile_append_dropWhile] at this
      rw [this] at h
      simp at h
  unfold pyStrip
  rw [← hd]
  cases hs : hasMatch m (dropTrail d) with
  | false => rfl
  | true =>
    obtain ⟨t, ht⟩ := dropTrail_decomp d
    have : hasMatch m (dropTrail d ++ t) = true := hasMatch_append_right m mono _ t hs
    rw [← ht] at this
    rw [this] at hdfalse
    simp at hdfalse

/-- The pattern `onclick=`, the claim's example of an inline
event-handler attribute. -/
def onclickPat : List Char := "onclick=".data

theorem lc_eq_self_of_eq (c : Char) (h : lc c = '=') : c = '=' := by
  unfold lc at h
  split at h <;> simp_all

theorem lc_word (c x : Char) (h : lc c = x) (hx : ('a' ≤ x && x ≤ 'z') = true) :
    isWordChar c = true := by
  unfold lc at h
  split at h
  all_goals first
  | decide
  | (subst h; simp [isWordChar, hx])

theorem matchOn_of_onclick (s : List Char) (h : ciPref onclickPat s = true) :
    (matchOn s).isSome = true := by
  rw [show onclickPat = ['o', 'n', 'c', 'l', 'i', 'c', 'k', '='] from rfl] at h
  rcases s with _ | ⟨c1, _ | ⟨c2, _ | ⟨c3, _ | ⟨c4, _ | ⟨c5, _ | ⟨c6, _ | ⟨c7, _ | ⟨c8, t⟩⟩⟩⟩⟩⟩⟩⟩
  all_goals try (simp [ciPref] at h)
  obtain ⟨e1, e2, e3, e4, e5, e6, e7, e8⟩ := h
  have h1 : (lc c1 == 'o') = true := by simp [e1]
  have h2 : (lc c2 == 'n') = true := by simp [e2]
  have hw3 : isWordChar c3 = true := lc_word c3 'c' e3 (by decide)
  have hw4 : isWordChar c4 = true := lc_word c4 'l' e4 (by decide)
  have hw5 : isWordChar c5 = true := lc_word c5 'i' e5 (by decide)
  have hw6 : isWordChar c6 = true := lc_word c6 'c' e6 (by decide)
  have hw7 : isWordChar c7 = true := lc_word c7 'k' e7 (by decide)
  have h8eq : c8 = '=' := lc_eq_self_of_eq c8 e8
  subst h8eq
  have hstop : isWordChar '=' = false := by decide
  have hspstop : isPySpace '=' = false := by decide
  have hw : List.takeWhile isWordChar (c3 :: c4 :: c5 :: c6 :: c7 :: '=' :: t) =
      [c3, c4, c5, c6, c7] := by
    rw [List.takeWhile_cons_of_pos hw3, List.takeWhile_cons_of_pos hw4,
      List.takeWhile_cons_of_pos hw5, List.takeWhile_cons_of_pos hw6,
      List.takeWhile_cons_of_pos hw7, List.takeWhile_cons_of_neg (by simp [hstop])]
  have hdrop : List.drop (([c3, c4, c5, c6, c7] : List Char)).length
      (c3 :: c4 :: c5 :: c6 :: c7 :: '=' :: t) = '=' :: t := rfl
  have hsp : List.takeWhile isPySpace ('=' :: t) = ([] : List Char) :=
    List.takeWhile_cons_of_neg (by simp [hspstop])
  have heqq : (lc '=' == '=') = true := by decide
  simp [matchOn, h1, h2, hw, hdrop, hsp, heqq]

theorem hasMatch_onclick_imp (l : List Char)
    (h : hasMatch (matchLit onclickPat) l = true) : hasMatch matchOn l = true := by
  induction l with
  | nil =>
    rw [show hasMatch (matchLit onclickPat) [] = false from by decide] at h
    simp at h
  | cons c cs ih =>
    simp only [hasMatch, Bool.or_eq_true] at h ⊢
    cases h with
    | inl hh =>
      have hc : ciPref onclickPat (c :: cs) = true := by
        by_cases hcc : ciPref onclickPat (c :: cs) = true
        · exact hcc
        · rw [show matchLit onclickPat (c :: cs) = none from by
            unfold matchLit; simp [hcc]] at hh
          simp at hh
      exact Or.inl (matchOn_of_onclick _ hc)
    | inr hh => exact Or.inr (ih hh)

theorem validate_message_ok_eq (v m : String)
    (h : validate_message v = Except.ok m) : m = sanitize_message v := by
  unfold validate_message at h
  by_cases h1 : v.length < 10
  · simp [h1] at h
  · by_cases h2 : 2000 < v.length
    · simp [h1, h2] at h
    · simp only [h1, if_false, h2] at h
      cases h
      rfl

/-- C3 (amended): sanitization is one removal pass per pattern, so a
deletion can splice surrounding characters into a new dangerous
substring which survives; what holds is that the passes introduce
nothing: a message containing no script/iframe block, no
(case-insensitive) `javascript:` and no inline event-handler attribute
`on<word>=` is stored as its trimmed self, still containing none of
them (in particular neither `javascript:` nor `onclick=`). -/
theorem C3_sanitize_clean_inputs_amended (v m : String)
    (hok : validate_message v = Except.ok m)
    (h1 : hasMatch (matchBlock scriptOpen scriptClose) v.data = false)
    (h2 : hasMatch (matchBlock iframeOpen iframeClose) v.data = false)
    (h3 : hasSubCI jsPattern v.data = false)
    (h4 : hasMatch matchOn v.data = false) :
    m = String.mk (pyStrip v.data) ∧
    hasMatch (matchBlock scriptOpen scriptClose) m.data = false ∧
    hasMatch (matchBlock iframeOpen iframeClose) m.data = false ∧
    hasSubCI jsPattern m.data = false ∧
    hasSubCI onclickPat m.data = false ∧
    hasMatch matchOn m.data = false := by
  have hm := validate_message_ok_eq v m hok
  have e1 : scanRemove (matchBlock scriptOpen scriptClose) v.data = v.data :=
    scanRemove_id _ _ h1
  have e2 : scanRemove (matchBlock iframeOpen iframeClose) v.data = v.data :=
    scanRemove_id _ _ h2
  have e3 : scanRemove (matchLit jsPattern) v.data = v.data :=
    scanRemove_id _ _ h3
  have e4 : scanRemove matchOn v.data = v.data :=
    scanRemove_id _ _ h4
  have hs : sanitize_message v = String.mk (pyStrip v.data) := by
    unfold sanitize_message
    simp only [e1, e2, e3, e4]
  have hdata : m.data = pyStrip v.data := by
    rw [hm, hs]
  have monoScript := fun s t => matchBlock_mono scriptOpen scriptClose s t
  have monoIframe := fun s t => matchBlock_mono iframeOpen iframeClose s t
  have monoJs := fun s t => matchLit_mono jsPattern s t
  have c1 : hasMatch (matchBlock scriptOpen scriptClose) (pyStrip v.data) = false :=
    hasMatch_pyStrip _ monoScript _ h1
  have c2 : hasMatch (matchBlock iframeOpen iframeClose) (pyStrip v.data) = false :=
    hasMatch_pyStrip _ monoIframe _ h2
  have c3 : hasMatch (matchLit jsPattern) (pyStrip v.data) = false :=
    hasMatch_pyStrip _ monoJs _ h3
  have c4 : hasMatch matchOn (pyStrip v.data) = false :=
    hasMatch_pyStrip _ matchOn_mono _ h4
  have c5 : hasMatch (matchLit onclickPat) (pyStrip v.data) = false := by
    cases hc : hasMatch (matchLit onclickPat) (pyStrip v.data) with
    | false => rfl
    | true =>
      have := hasMatch_onclick_imp _ hc
      rw [this] at c4
      simp at c4
  rw [hdata] at *
  exact ⟨by rw [hm, hs], c1, c2, c3, c5, c4⟩

/-- Witness for C3 (amended) at a concrete clean message. -/
theorem C3_sanitize_clean_inputs_amended_witness :
    validate_message "Bonjour, je souhaite des informations." =
      Except.ok (sanitize_message "Bonjour, je souhaite des informations.") ∧
    hasSubCI jsPattern (sanitize_message "Bonjour, je souhaite des informations.").data = false ∧
    hasSubCI onclickPat (sanitize_message "Bonjour, je souhaite des informations.").data = false := by
  have h := C3_sanitize_clean_inputs_amended "Bonjour, je souhaite des informations."
    (sanitize_message "Bonjour, je souhaite des informations.") rfl
    (by decide) (by decide) (by decide) (by decide)
  exact ⟨rfl, h.2.2.2.1, h.2.2.2.2.1⟩

/-- C3 counterexample: the accepted 24-character message
`javajavascript:script:xx` is stored as `javascript:xx` — removing the
inner `javascript:` splices the surrounding text into a new
`javascript:` occurrence, which survives sanitization. -/
theorem C3_counterexample_spliced_javascript :
    validate_message "javajavascript:script:xx" = Except.ok "javascript:xx" ∧
    hasSubCI jsPattern ("javascript:xx" : String).data = true :=
  ⟨rfl, by decide⟩

end FastapiMailSender
